import Mathlib

/-!
Shallow embedding of the cache-aside reverse-geocoding service
(src/geocoderService.js, src/models/GeoCache.js, src/unnamed/part_001).

JavaScript numbers are modelled as exact rationals carried as an
unnormalised numerator/denominator pair (`JsNum`); all arithmetic the
quantizer performs (multiply by 1000, Math.round, divide by 1000,
template-string rendering) is exact at these values, and the JS engine
renders the resulting number n/1000 as its minimal decimal string,
which `renderMilli` reproduces.  Timestamps are integers (milliseconds).
The MongoDB collection backing GeoCache is a list of records with unique
cache keys; findOneAndUpdate/upsert/deleteMany are modelled operationally.
Mongoose casts a plain (non-$) update document into a $set of exactly the
listed fields, so the upsert in getLocation sets hitCount to 1 even on an
existing record; the embedding mirrors that.
-/

/-- A JavaScript number value, represented exactly as num/den. -/
structure JsNum where
  num : Int
  den : Int
deriving DecidableEq, Repr

/-- Math.round(x * 1000) for x = num/den: the integer floor(x*1000 + 1/2)
(ECMAScript Math.round rounds half toward positive infinity), computed as
floor((2000*num + den) / (2*den)). -/
def jsRound1000 (x : JsNum) : Int :=
  (2000 * x.num + x.den).fdiv (2 * x.den)

/-- Decimal digits of a fractional part fp (0 < fp < 1000) of n/1000,
as the JS engine prints them: three digits with trailing zeros removed. -/
def fracStr (fp : Nat) : String :=
  let d1 := Nat.digitChar (fp / 100)
  let d2 := Nat.digitChar (fp / 10 % 10)
  let d3 := Nat.digitChar (fp % 10)
  if fp % 10 ≠ 0 then String.mk [d1, d2, d3]
  else if fp % 100 ≠ 0 then String.mk [d1, d2]
  else String.mk [d1]

/-- Minimal decimal rendering of the nonnegative number m/1000. -/
def renderMilliNat (m : Nat) : String :=
  if m % 1000 = 0 then Nat.repr (m / 1000)
  else Nat.repr (m / 1000) ++ "." ++ fracStr (m % 1000)

/-- Minimal decimal rendering of the number n/1000, i.e. what the JS
template literal produces for Math.round(x*1000)/1000. -/
def renderMilli (n : Int) : String :=
  if n < 0 then "-" ++ renderMilliNat n.natAbs else renderMilliNat n.natAbs

/-- generateCacheKey from src/geocoderService.js: rounds each coordinate to
3 decimal places via Math.round(x*1000)/1000 and renders "<lat>,<lng>". -/
def generateCacheKey (lat lng : JsNum) : String :=
  renderMilli (jsRound1000 lat) ++ "," ++ renderMilli (jsRound1000 lng)

/-- getCacheKey from src/unnamed/part_001 (the standalone utility):
the same formula as generateCacheKey. -/
def getCacheKey (lat lng : JsNum) : String :=
  renderMilli (jsRound1000 lat) ++ "," ++ renderMilli (jsRound1000 lng)

/-- A raw admin1Code/admin2Code field of the resolver payload: either a
bare code string or an object carrying a pre-resolved name. -/
inductive AdminCode where
  | code (s : String)
  | named (nm : String)
deriving DecidableEq, Repr

/-- The JS value stored in adminName1/adminName2 after
data.adminXCode?.name || data.adminXCode || two-step fallback:
a string, or (when the object carried a falsy name) the object itself. -/
inductive FieldVal where
  | fstr (s : String)
  | fobj (nm : String)
deriving DecidableEq, Repr

/-- JS truthiness of a FieldVal: empty strings are falsy, objects truthy. -/
def truthy : FieldVal → Bool
  | .fstr s => if s = "" then false else true
  | .fobj _ => true

/-- JS strict equality of a FieldVal against a string: an object is never
equal to a string. -/
def feqName : FieldVal → String → Bool
  | .fstr t, s => if t = s then true else false
  | .fobj _, _ => false

/-- JS string coercion of a FieldVal, as Array.prototype.join performs. -/
def strOf : FieldVal → String
  | .fstr s => s
  | .fobj _ => "[object Object]"

/-- Evaluation of data.adminXCode?.name || data.adminXCode || empty. -/
def adminField : Option AdminCode → FieldVal
  | none => .fstr ""
  | some (.code s) => .fstr s
  | some (.named nm) => if nm = "" then .fobj nm else .fstr nm

/-- One candidate of the raw resolver payload (rawResult[i][j]). -/
structure RawData where
  name : Option String
  admin1Code : Option AdminCode
  admin2Code : Option AdminCode
  countryCode : Option String
  population : Option Int
  featureCode : Option String
deriving DecidableEq, Repr

/-- The resolver payload: rank-major list of candidate lists. -/
def RawResult := List (List RawData)
deriving DecidableEq

/-- The static country-code table of geocoderService.getCountryName. -/
def countries : String → Option String
  | "IN" => some "India"
  | "US" => some "United States"
  | "GB" => some "United Kingdom"
  | "CA" => some "Canada"
  | "AU" => some "Australia"
  | "DE" => some "Germany"
  | "FR" => some "France"
  | "JP" => some "Japan"
  | "CN" => some "China"
  | "BR" => some "Brazil"
  | _ => none

/-- JS a || b for a : String Option as the table lookup result and b the
raw code: falsy (missing or empty) lookup results fall through to b. -/
def jsOr (a : Option String) (b : String) : String :=
  match a with
  | some v => if v = "" then b else v
  | none => b

/-- getCountryName from src/geocoderService.js, applied to the possibly
absent data.countryCode: countries[code] || code.  When the code is
absent the result is undefined (none), not the empty string. -/
def getCountryName : Option String → Option String
  | none => none
  | some c => some (jsOr (countries c) c)

/-- The clean location object built by formatLocation. -/
structure LocationRec where
  name : String
  adminName1 : FieldVal
  adminName2 : FieldVal
  countryCode : String
  countryName : Option String
  population : Int
  featureCode : String
  displayName : String
deriving DecidableEq, Repr

/-- The parts array of the display-name assembly, before filter(Boolean). -/
def displayParts (name : String) (a1 a2 : FieldVal) (cn : Option String) :
    List FieldVal :=
  [FieldVal.fstr name]
    ++ (if truthy a2 && !(feqName a2 name) then [a2] else [])
    ++ (if truthy a1 then [a1] else [])
    ++ (match cn with
        | none => []
        | some s => if s = "" then [] else [FieldVal.fstr s])

/-- formatLocation from src/geocoderService.js: null unless the first rank
list has a first candidate; otherwise extracts fields with JS-falsy
defaults and assembles displayName. -/
def formatLocation (rawResult : RawResult) : Option LocationRec :=
  match rawResult with
  | (data :: _) :: _ =>
    let name := data.name.getD ""
    let a1 := adminField data.admin1Code
    let a2 := adminField data.admin2Code
    let cn := getCountryName data.countryCode
    some
      { name := name
        adminName1 := a1
        adminName2 := a2
        countryCode := data.countryCode.getD ""
        countryName := cn
        population := data.population.getD 0
        featureCode := data.featureCode.getD ""
        displayName :=
          String.intercalate ", "
            (((displayParts name a1 a2 cn).filter truthy).map strOf) }
  | _ => none

/-- One document of the GeoCache collection (src/models/GeoCache.js). -/
structure CacheRecord where
  cacheKey : String
  latitude : JsNum
  longitude : JsNum
  location : LocationRec
  rawResponse : RawResult
  hitCount : Nat
  createdAt : Int
  lastAccessedAt : Int
deriving DecidableEq

/-- Lookup of the (first) document with a given cacheKey. -/
def findRec (key : String) : List CacheRecord → Option CacheRecord
  | [] => none
  | r :: rs => if r.cacheKey = key then some r else findRec key rs

/-- The effect of the read-side $inc/$set on a matched document. -/
def touchRecord (now : Int) (r : CacheRecord) : CacheRecord :=
  { r with hitCount := r.hitCount + 1, lastAccessedAt := now }

/-- The document inserted by the upsert when no cacheKey match exists. -/
def freshRecord (now : Int) (key : String) (lat lng : JsNum)
    (loc : LocationRec) (raw : RawResult) : CacheRecord :=
  { cacheKey := key, latitude := lat, longitude := lng, location := loc,
    rawResponse := raw, hitCount := 1, createdAt := now,
    lastAccessedAt := now }

/-- The effect of the upsert's $set on an existing document: location,
rawResponse and coordinates overwritten, lastAccessedAt refreshed,
createdAt untouched, and hitCount overwritten with the literal 1. -/
def overwriteRecord (now : Int) (key : String) (lat lng : JsNum)
    (loc : LocationRec) (raw : RawResult) (r : CacheRecord) : CacheRecord :=
  { r with cacheKey := key, latitude := lat, longitude := lng,
           location := loc, rawResponse := raw, hitCount := 1,
           lastAccessedAt := now }

/-- GeoCache.findOneAndUpdate({cacheKey}, {$inc: {hitCount: 1},
$set: {lastAccessedAt: now}}, {new: true}): atomically bumps the counter
and recency of the matching document and returns the updated document,
or none when no document matches. -/
def getAndTouch (now : Int) (key : String) :
    List CacheRecord → Option CacheRecord × List CacheRecord
  | [] => (none, [])
  | r :: rs =>
    if r.cacheKey = key then
      (some (touchRecord now r), touchRecord now r :: rs)
    else
      let (o, rs') := getAndTouch now key rs
      (o, r :: rs')

/-- GeoCache.findOneAndUpdate({cacheKey}, {cacheKey, latitude, longitude,
location, rawResponse, hitCount: 1, lastAccessedAt: now}, {upsert: true}):
Mongoose casts the plain update document to a $set of those fields, so an
existing document keeps its createdAt but has hitCount overwritten with 1;
a missing document is inserted with those fields and createdAt = now. -/
def upsert (now : Int) (key : String) (lat lng : JsNum) (loc : LocationRec)
    (raw : RawResult) : List CacheRecord → List CacheRecord
  | [] => [freshRecord now key lat lng loc raw]
  | r :: rs =>
    if r.cacheKey = key then
      overwriteRecord now key lat lng loc raw r :: rs
    else r :: upsert now key lat lng loc raw rs

/-- GeoCache.deleteMany({lastAccessedAt: {$lt: cutoff}}): removes every
document strictly older than the cutoff and reports the deleted count. -/
def deleteOlderThan (cutoff : Int) :
    List CacheRecord → Nat × List CacheRecord
  | [] => (0, [])
  | r :: rs =>
    let (n, rs') := deleteOlderThan cutoff rs
    if r.lastAccessedAt < cutoff then (n + 1, rs') else (n, r :: rs')

/-- clearOldCache from src/unnamed/part_001: cutoff is exactly daysOld
days of milliseconds before now; returns result.deletedCount. -/
def clearOldCache (now : Int) (daysOld : Nat) (cache : List CacheRecord) :
    Nat × List CacheRecord :=
  let cutoff := now - (daysOld : Int) * 24 * 60 * 60 * 1000
  deleteOlderThan cutoff cache

/-- The service environment: the external resolver oracle
(geocoder.lookUp with maxResults 1, which either rejects or yields a
payload), the one-time init flag, fault switches for the two store
round-trips, and the current clock. -/
structure Env where
  resolver : JsNum → JsNum → Except String RawResult
  inited : Bool
  readFail : Bool
  writeFail : Bool
  now : Int

/-- Mutable state visible to the service: the GeoCache collection, plus a
ghost counter of how many times the external resolver has been invoked. -/
structure St where
  cache : List CacheRecord
  lookups : Nat
deriving DecidableEq

/-- The object returned by getLocation.  Fields absent from a particular
return shape (the Unknown shape carries no admin/country/population data;
only the cache-hit shape carries hitCount) are none. -/
structure LocResult where
  name : String
  displayName : String
  adminName1 : Option FieldVal
  adminName2 : Option FieldVal
  countryCode : Option String
  countryName : Option String
  population : Option Int
  featureCode : Option String
  source : String
  cacheKey : String
  hitCount : Option Nat
deriving DecidableEq, Repr

/-- Cache-hit return value: {...cached.location, source: "cache", cacheKey,
hitCount: cached.hitCount}. -/
def cacheHitResult (r : CacheRecord) (key : String) : LocResult :=
  { name := r.location.name
    displayName := r.location.displayName
    adminName1 := some r.location.adminName1
    adminName2 := some r.location.adminName2
    countryCode := some r.location.countryCode
    countryName := r.location.countryName
    population := some r.location.population
    featureCode := some r.location.featureCode
    source := "cache"
    cacheKey := key
    hitCount := some r.hitCount }

/-- Fresh-lookup return value: {...location, source: "local", cacheKey}. -/
def localResult (loc : LocationRec) (key : String) : LocResult :=
  { name := loc.name
    displayName := loc.displayName
    adminName1 := some loc.adminName1
    adminName2 := some loc.adminName2
    countryCode := some loc.countryCode
    countryName := loc.countryName
    population := some loc.population
    featureCode := some loc.featureCode
    source := "local"
    cacheKey := key
    hitCount := none }

/-- Unresolved-lookup return value: {name: "Unknown", displayName:
"Unknown Location", source: "local", cacheKey}. -/
def unknownResult (key : String) : LocResult :=
  { name := "Unknown"
    displayName := "Unknown Location"
    adminName1 := none
    adminName2 := none
    countryCode := none
    countryName := none
    population := none
    featureCode := none
    source := "local"
    cacheKey := key
    hitCount := none }

/-- getLocation from src/geocoderService.js.  Throws (Except.error) only
for the not-initialized guard and for a rejecting resolver; a failing
cache read degrades to a miss, a failing cache write is swallowed.  The
pair always carries the post-call store state. -/
def getLocation (env : Env) (st : St) (lat lng : JsNum)
    (skipCache : Bool) : Except String LocResult × St :=
  if env.inited then
    let cacheKey := generateCacheKey lat lng
    match (if skipCache || env.readFail then (none, st.cache)
           else getAndTouch env.now cacheKey st.cache) with
    | (some r, c') => (.ok (cacheHitResult r cacheKey), { st with cache := c' })
    | (none, _) =>
      let st1 : St := ⟨st.cache, st.lookups + 1⟩
      match env.resolver lat lng with
      | .error e => (.error e, st1)
      | .ok raw =>
        match formatLocation raw with
        | none => (.ok (unknownResult cacheKey), st1)
        | some loc =>
          (.ok (localResult loc cacheKey),
           if env.writeFail then st1
           else ⟨upsert env.now cacheKey lat lng loc raw st1.cache,
                 st1.lookups⟩)
  else (.error "Geocoder not initialized. Call init() first.", st)

/-- One entry of the batch input. -/
structure Coord where
  lat : JsNum
  lng : JsNum
deriving DecidableEq

/-- One entry of the batch output: {...coord, location: result} on
success, {...coord, location: null, error: err.message} on failure. -/
structure BatchEntry where
  lat : JsNum
  lng : JsNum
  location : Option LocResult
  error : Option String
deriving DecidableEq

/-- One iteration of the getLocations loop: try/catch around a single
getLocation call with the cache enabled (no skipCache argument). -/
def batchStep (env : Env) (st : St) (c : Coord) : BatchEntry × St :=
  match getLocation env st c.lat c.lng false with
  | (.ok r, st') =>
    ({ lat := c.lat, lng := c.lng, location := some r, error := none }, st')
  | (.error e, st') =>
    ({ lat := c.lat, lng := c.lng, location := none, error := some e }, st')

/-- getLocations from src/geocoderService.js: sequential per-coordinate
resolution, accumulating one output entry per input entry. -/
def getLocations (env : Env) : St → List Coord → List BatchEntry × St
  | st, [] => ([], st)
  | st, c :: cs =>
    let (e, st') := batchStep env st c
    let (l, st'') := getLocations env st' cs
    (e :: l, st'')

/-- The raw candidate of the Gorakhpur scenario in section 8 of the spec. -/
def gkData : RawData :=
  { name := some "Gorakhpur", admin1Code := some (.named "Uttar Pradesh"),
    admin2Code := some (.named "Gorakhpur"), countryCode := some "IN",
    population := none, featureCode := none }

/-- The resolver payload of the Gorakhpur scenario. -/
def gkRaw : RawResult := [[gkData]]

/-- Latitude 26.7606. -/
def qLat : JsNum := ⟨267606, 10000⟩

/-- Longitude 83.3732. -/
def qLng : JsNum := ⟨833732, 10000⟩

/-- A healthy initialized environment whose resolver always finds the
Gorakhpur candidate. -/
def envOk : Env :=
  { resolver := fun _ _ => .ok gkRaw, inited := true, readFail := false,
    writeFail := false, now := 0 }

/-- The empty initial service state. -/
def st0 : St := ⟨[], 0⟩

/-- A candidate carrying a name but no other fields, in particular no
countryCode. -/
def noCountryData : RawData :=
  { name := some "X", admin1Code := none, admin2Code := none,
    countryCode := none, population := none, featureCode := none }

/-- The formatted Gorakhpur location record. -/
def gkLoc : LocationRec :=
  { name := "Gorakhpur", adminName1 := .fstr "Uttar Pradesh",
    adminName2 := .fstr "Gorakhpur", countryCode := "IN",
    countryName := some "India", population := 0, featureCode := "",
    displayName := "Gorakhpur, Uttar Pradesh, India" }

/-- An initialized environment whose resolver finds no candidate. -/
def envUnk : Env :=
  { resolver := fun _ _ => .ok [], inited := true, readFail := false,
    writeFail := false, now := 0 }

/-- An initialized environment whose resolver call itself rejects. -/
def envErr : Env :=
  { resolver := fun _ _ => .error "boom", inited := true, readFail := false,
    writeFail := false, now := 0 }

/-- An initialized environment whose cache reads fail. -/
def envRF : Env :=
  { resolver := fun _ _ => .ok gkRaw, inited := true, readFail := true,
    writeFail := false, now := 0 }

/-- jsRound1000 x is the floor of x*1000 + 1/2 whenever the denominator is
positive: it is characterised by 2d*r <= 2000n + d < 2d*(r+1). -/
theorem jsRound1000_spec (n d : Int) (h : 0 < d) :
    2 * d * jsRound1000 ⟨n, d⟩ ≤ 2000 * n + d ∧
      2000 * n + d < 2 * d * (jsRound1000 ⟨n, d⟩ + 1) := by
  have h2 : (0 : Int) < 2 * d := by omega
  simp only [jsRound1000]
  rw [Int.fdiv_eq_ediv _ (by omega)]
  have hmod := Int.emod_nonneg (2000 * n + d) (by omega : (2 : Int) * d ≠ 0)
  have hmod2 := Int.emod_lt_of_pos (2000 * n + d) h2
  have hdm := Int.ediv_add_emod (2000 * n + d) (2 * d)
  constructor <;> nlinarith [hdm, hmod, hmod2]

/-- The rounding depends only on the rational value: two representations
of the same number round identically. -/
theorem jsRound1000_val_eq (n d n' d' : Int) (hd : 0 < d) (hd' : 0 < d')
    (hval : n * d' = n' * d) : jsRound1000 ⟨n, d⟩ = jsRound1000 ⟨n', d'⟩ := by
  obtain ⟨h1, h2⟩ := jsRound1000_spec n d hd
  obtain ⟨h3, h4⟩ := jsRound1000_spec n' d' hd'
  set r := jsRound1000 ⟨n, d⟩ with hr
  set r' := jsRound1000 ⟨n', d'⟩ with hr'
  by_contra hne
  rcases lt_or_gt_of_ne hne with hlt | hgt
  · have hx : r + 1 ≤ r' := by omega
    have c1 : 2 * d * d' * (r + 1) ≤ 2 * d * d' * r' := by
      have := mul_le_mul_of_nonneg_left hx (by nlinarith : (0:Int) ≤ 2 * d * d')
      linarith
    have c2 : (2000 * n + d) * d' < 2 * d * (r + 1) * d' :=
      mul_lt_mul_of_pos_right h2 hd'
    have c3 : 2 * d' * r' * d ≤ (2000 * n' + d') * d :=
      mul_le_mul_of_nonneg_right h3 (by omega)
    nlinarith
  · have hx : r' + 1 ≤ r := by omega
    have c1 : 2 * d * d' * (r' + 1) ≤ 2 * d * d' * r := by
      have := mul_le_mul_of_nonneg_left hx (by nlinarith : (0:Int) ≤ 2 * d * d')
      linarith
    have c2 : (2000 * n' + d') * d < 2 * d' * (r' + 1) * d :=
      mul_lt_mul_of_pos_right h4 hd
    have c3 : 2 * d * r * d' ≤ (2000 * n + d) * d' :=
      mul_le_mul_of_nonneg_right h1 (by omega)
    nlinarith

theorem getAndTouch_of_find_none (now : Int) (key : String)
    (cache : List CacheRecord) (h : findRec key cache = none) :
    getAndTouch now key cache = (none, cache) := by
  induction cache with
  | nil => rfl
  | cons r rs ih =>
    by_cases hr : r.cacheKey = key
    · simp [findRec, hr] at h
    · simp [findRec, hr] at h
      simp [getAndTouch, hr, ih h]

theorem upsert_of_find_none (now : Int) (key : String) (lat lng : JsNum)
    (loc : LocationRec) (raw : RawResult) (cache : List CacheRecord)
    (h : findRec key cache = none) :
    findRec key (upsert now key lat lng loc raw cache)
      = some (freshRecord now key lat lng loc raw) := by
  induction cache with
  | nil => simp [upsert, findRec, freshRecord]
  | cons r rs ih =>
    by_cases hr : r.cacheKey = key
    · simp [findRec, hr] at h
    · simp [findRec, hr] at h
      simp [upsert, findRec, hr, ih h]

theorem upsert_of_find_some (now : Int) (key : String) (lat lng : JsNum)
    (loc : LocationRec) (raw : RawResult) (cache : List CacheRecord)
    (r : CacheRecord) (h : findRec key cache = some r) :
    findRec key (upsert now key lat lng loc raw cache)
      = some (overwriteRecord now key lat lng loc raw r) := by
  induction cache with
  | nil => simp [findRec] at h
  | cons r0 rs ih =>
    by_cases hr : r0.cacheKey = key
    · simp [findRec, hr] at h
      subst h
      simp [upsert, findRec, hr, overwriteRecord]
    · simp [findRec, hr] at h
      simp [upsert, findRec, hr, ih h]

theorem getLocations_cons (env : Env) (st : St) (c : Coord)
    (cs : List Coord) :
    getLocations env st (c :: cs)
      = ((batchStep env st c).1 :: (getLocations env (batchStep env st c).2 cs).1,
         (getLocations env (batchStep env st c).2 cs).2) := by
  cases hb : batchStep env st c with
  | mk e s =>
    cases hg : getLocations env s cs with
    | mk l s2 => simp [getLocations, hb, hg]

theorem batchStep_coord (env : Env) (st : St) (c : Coord) :
    (batchStep env st c).1.lat = c.lat ∧ (batchStep env st c).1.lng = c.lng := by
  cases hg : getLocation env st c.lat c.lng false with
  | mk e s => cases e <;> simp [batchStep, hg]

theorem getLocations_length (env : Env) (st : St) (coords : List Coord) :
    ((getLocations env st coords).1).length = coords.length := by
  induction coords generalizing st with
  | nil => rfl
  | cons c cs ih => simp [getLocations_cons, ih]

theorem deleteOlderThan_eq_filter (cutoff : Int) (l : List CacheRecord) :
    deleteOlderThan cutoff l
      = ((l.filter (fun r => decide (r.lastAccessedAt < cutoff))).length,
         l.filter (fun r => !decide (r.lastAccessedAt < cutoff))) := by
  induction l with
  | nil => rfl
  | cons r rs ih =>
    by_cases h : r.lastAccessedAt < cutoff <;>
      simp [deleteOlderThan, ih, h, List.filter]

/-- C2: for every finite numeric pair the key quantizer returns
"<lat>,<lng>" with each component rounded to 3 decimal places via
round(x*1000)/1000 and rendered canonically and reproducibly: the two
implementations (generateCacheKey and getCacheKey) produce the identical
string, the rendering is the minimal decimal form (at most 3 fractional
digits, never a trailing zero after the point, so "26.761" and never
"26.7609999999"), and the Gorakhpur coordinates render as
"26.761,83.373". -/
theorem c2_cache_key_canonical_format :
    (∀ lat lng : JsNum, generateCacheKey lat lng = getCacheKey lat lng) ∧
    (∀ lat lng : JsNum,
      generateCacheKey lat lng
        = renderMilli (jsRound1000 lat) ++ "," ++ renderMilli (jsRound1000 lng)) ∧
    (∀ fp : Nat, fp < 1000 → fp ≠ 0 →
      (fracStr fp).data.length ≤ 3 ∧ (fracStr fp).data.getLast? ≠ some '0') ∧
    generateCacheKey ⟨267606, 10000⟩ ⟨833732, 10000⟩ = "26.761,83.373" :=
  ⟨fun _ _ => rfl, fun _ _ => rfl,
   by set_option maxRecDepth 8000 in decide, by decide⟩

/-- Witness for c2_cache_key_canonical_format: the fractional digits of
0.761 are at most three and do not end in a zero. -/
theorem c2_cache_key_canonical_format_witness :
    (fracStr 761).data.length ≤ 3 ∧ (fracStr 761).data.getLast? ≠ some '0' :=
  c2_cache_key_canonical_format.2.2.1 761 (by decide) (by decide)

/-- C9: the quantizer is total and deterministic, depending only on the
numeric values of the coordinates (any two exact representations of the
same numbers give the identical key), and it groups by the 3-decimal
rounding cell: (26.76061, 83.37321) and (26.76064, 83.37324) share a key
while (26.7601, 83.3732) and (26.7611, 83.3732) do not. -/
theorem c9_quantize_deterministic_grouping :
    (∀ (n d n' d' m e m' e' : Int), 0 < d → 0 < d' → 0 < e → 0 < e' →
      n * d' = n' * d → m * e' = m' * e →
      generateCacheKey ⟨n, d⟩ ⟨m, e⟩ = generateCacheKey ⟨n', d'⟩ ⟨m', e'⟩) ∧
    generateCacheKey ⟨2676061, 100000⟩ ⟨8337321, 100000⟩
      = generateCacheKey ⟨2676064, 100000⟩ ⟨8337324, 100000⟩ ∧
    generateCacheKey ⟨267601, 10000⟩ ⟨833732, 10000⟩
      ≠ generateCacheKey ⟨267611, 10000⟩ ⟨833732, 10000⟩ := by
  refine ⟨?_, by decide, by decide⟩
  intro n d n' d' m e m' e' hd hd' he he' hv hw
  unfold generateCacheKey
  rw [jsRound1000_val_eq n d n' d' hd hd' hv, jsRound1000_val_eq m e m' e' he he' hw]

/-- Witness for c9_quantize_deterministic_grouping: 26.7606 represented
over denominator 10000 and over denominator 100000 quantize to the same
key. -/
theorem c9_quantize_deterministic_grouping_witness :
    generateCacheKey ⟨267606, 10000⟩ ⟨833732, 10000⟩
      = generateCacheKey ⟨2676060, 100000⟩ ⟨8337320, 100000⟩ :=
  c9_quantize_deterministic_grouping.1 267606 10000 2676060 100000
    833732 10000 8337320 100000 (by decide) (by decide) (by decide) (by decide)
    (by decide) (by decide)

theorem formatLocation_gkRaw : formatLocation gkRaw = some gkLoc := by decide

/-- C1 counterexample: on the Gorakhpur environment, resolve twice
(creating the record and hitting it, hitCount 2) and then once more with
skipCache; the re-resolution upsert writes hitCount back to 1, so the
record's hitCount decreases from 2 to 1, refuting "upsert does not reset
hitCount / hitCount never decreases". -/
theorem c1_hitcount_reset_counterexample :
    (let st1 := (getLocation envOk st0 qLat qLng false).2
     let st2 := (getLocation envOk st1 qLat qLng false).2
     let st3 := (getLocation envOk st2 qLat qLng true).2
     ((findRec "26.761,83.373" st2.cache).map CacheRecord.hitCount,
      (findRec "26.761,83.373" st3.cache).map CacheRecord.hitCount))
      = (some 2, some 1) := by decide

/-- C1 amended: hitCount starts at 1 on creation, and the upsert after a
miss or skipCache re-resolution overwrites location/rawResponse/
coordinates and refreshes lastAccessedAt while preserving createdAt — but
it also overwrites hitCount with 1, so a re-resolution of an existing
record (skipCache, or a failed cache read racing an existing record)
resets hitCount and hitCount may decrease. -/
theorem c1_amended_upsert_resets_hitcount :
    (∀ (now : Int) (key : String) (lat lng : JsNum) (loc : LocationRec)
       (raw : RawResult) (cache : List CacheRecord),
      findRec key cache = none →
      findRec key (upsert now key lat lng loc raw cache)
          = some (freshRecord now key lat lng loc raw) ∧
      (freshRecord now key lat lng loc raw).hitCount = 1) ∧
    (∀ (now : Int) (key : String) (lat lng : JsNum) (loc : LocationRec)
       (raw : RawResult) (cache : List CacheRecord) (r : CacheRecord),
      findRec key cache = some r →
      findRec key (upsert now key lat lng loc raw cache)
          = some (overwriteRecord now key lat lng loc raw r) ∧
      (overwriteRecord now key lat lng loc raw r).location = loc ∧
      (overwriteRecord now key lat lng loc raw r).rawResponse = raw ∧
      (overwriteRecord now key lat lng loc raw r).latitude = lat ∧
      (overwriteRecord now key lat lng loc raw r).longitude = lng ∧
      (overwriteRecord now key lat lng loc raw r).lastAccessedAt = now ∧
      (overwriteRecord now key lat lng loc raw r).createdAt = r.createdAt ∧
      (overwriteRecord now key lat lng loc raw r).hitCount = 1) ∧
    (∀ (env : Env) (st : St) (lat lng : JsNum) (raw : RawResult)
       (loc : LocationRec),
      env.inited = true → env.writeFail = false →
      env.resolver lat lng = Except.ok raw → formatLocation raw = some loc →
      ((getLocation env st lat lng true).2).cache
          = upsert env.now (generateCacheKey lat lng) lat lng loc raw st.cache) := by
  refine ⟨?_, ?_, ?_⟩
  · intro now key lat lng loc raw cache h
    exact ⟨upsert_of_find_none now key lat lng loc raw cache h, rfl⟩
  · intro now key lat lng loc raw cache r h
    exact ⟨upsert_of_find_some now key lat lng loc raw cache r h,
           rfl, rfl, rfl, rfl, rfl, rfl, rfl⟩
  · intro env st lat lng raw loc h1 h2 h3 h4
    simp [getLocation, h1, h2, h3, h4]

/-- Witness for c1_amended_upsert_resets_hitcount: upserting the
Gorakhpur record into an empty store creates it with hitCount 1. -/
theorem c1_amended_upsert_resets_hitcount_witness :
    findRec "k" (upsert 0 "k" qLat qLng gkLoc gkRaw [])
        = some (freshRecord 0 "k" qLat qLng gkLoc gkRaw) ∧
      (freshRecord 0 "k" qLat qLng gkLoc gkRaw).hitCount = 1 :=
  c1_amended_upsert_resets_hitcount.1 0 "k" qLat qLng gkLoc gkRaw [] rfl

/-- C3: after one successful resolve on an empty cache with a formattable
resolver result, the second resolve of the same coordinates returns
source "cache", hitCount 2, the same key and the same location fields;
concretely, resolve(26.7606, 83.3732) against the Gorakhpur resolver
returns displayName "Gorakhpur, Uttar Pradesh, India", source "local",
key "26.761,83.373". -/
theorem c3_cache_idempotence :
    (∀ (env : Env) (n0 : Nat) (lat lng : JsNum) (raw : RawResult)
       (loc : LocationRec),
      env.inited = true → env.readFail = false → env.writeFail = false →
      env.resolver lat lng = Except.ok raw → formatLocation raw = some loc →
      ∃ r1 st1 r2 st2,
        getLocation env ⟨[], n0⟩ lat lng false = (Except.ok r1, st1) ∧
        getLocation env st1 lat lng false = (Except.ok r2, st2) ∧
        r1.source = "local" ∧ r1.cacheKey = generateCacheKey lat lng ∧
        r2.source = "cache" ∧ r2.hitCount = some 2 ∧
        r2.cacheKey = r1.cacheKey ∧
        r2.name = r1.name ∧ r2.displayName = r1.displayName ∧
        r2.adminName1 = r1.adminName1 ∧ r2.adminName2 = r1.adminName2 ∧
        r2.countryCode = r1.countryCode ∧ r2.countryName = r1.countryName) ∧
    ((getLocation envOk st0 qLat qLng false).1.toOption.map
        (fun r => (r.displayName, r.source, r.cacheKey)))
      = some ("Gorakhpur, Uttar Pradesh, India", "local", "26.761,83.373") := by
  constructor
  · intro env n0 lat lng raw loc h1 h2 h3 h4 h5
    have e1 : getLocation env ⟨[], n0⟩ lat lng false
        = (Except.ok (localResult loc (generateCacheKey lat lng)),
           ⟨[freshRecord env.now (generateCacheKey lat lng) lat lng loc raw],
            n0 + 1⟩) := by
      simp [getLocation, h1, h2, h3, h4, h5, getAndTouch, upsert]
    have e2 : getLocation env
          ⟨[freshRecord env.now (generateCacheKey lat lng) lat lng loc raw],
           n0 + 1⟩ lat lng false
        = (Except.ok (cacheHitResult
              (touchRecord env.now
                (freshRecord env.now (generateCacheKey lat lng) lat lng loc raw))
              (generateCacheKey lat lng)),
           ⟨[touchRecord env.now
               (freshRecord env.now (generateCacheKey lat lng) lat lng loc raw)],
            n0 + 1⟩) := by
      simp [getLocation, h1, h2, getAndTouch, freshRecord]
    refine ⟨_, _, _, _, e1, e2, rfl, rfl, rfl, rfl, rfl, rfl, rfl, rfl, rfl,
            rfl, rfl⟩
  · decide

/-- Witness for c3_cache_idempotence: its general part instantiated with
the Gorakhpur environment on the empty cache. -/
theorem c3_cache_idempotence_witness :
    ∃ r1 st1 r2 st2,
      getLocation envOk ⟨[], 0⟩ qLat qLng false = (Except.ok r1, st1) ∧
      getLocation envOk st1 qLat qLng false = (Except.ok r2, st2) ∧
      r1.source = "local" ∧ r1.cacheKey = generateCacheKey qLat qLng ∧
      r2.source = "cache" ∧ r2.hitCount = some 2 ∧
      r2.cacheKey = r1.cacheKey ∧
      r2.name = r1.name ∧ r2.displayName = r1.displayName ∧
      r2.adminName1 = r1.adminName1 ∧ r2.adminName2 = r1.adminName2 ∧
      r2.countryCode = r1.countryCode ∧ r2.countryName = r1.countryName :=
  c3_cache_idempotence.1 envOk 0 qLat qLng gkRaw gkLoc rfl rfl rfl rfl
    formatLocation_gkRaw

/-- C4: when the resolver yields no candidate, resolve returns the
Unknown placeholder {name "Unknown", displayName "Unknown Location",
source "local", key} and writes nothing to the cache, so an immediate
second resolve of the same coordinates again finds no entry for the key
and invokes the resolver a second time (the ghost lookup counter advances
on both calls while the cache is unchanged). -/
theorem c4_unknown_not_cached :
    ∀ (env : Env) (st : St) (lat lng : JsNum) (raw : RawResult),
      env.inited = true → env.readFail = false →
      env.resolver lat lng = Except.ok raw → formatLocation raw = none →
      findRec (generateCacheKey lat lng) st.cache = none →
      getLocation env st lat lng false
          = (Except.ok (unknownResult (generateCacheKey lat lng)),
             ⟨st.cache, st.lookups + 1⟩) ∧
      getLocation env ⟨st.cache, st.lookups + 1⟩ lat lng false
          = (Except.ok (unknownResult (generateCacheKey lat lng)),
             ⟨st.cache, st.lookups + 2⟩) := by
  intro env st lat lng raw h1 h2 h3 h4 h5
  constructor
  · simp [getLocation, h1, h2, h3, h4,
          getAndTouch_of_find_none env.now (generateCacheKey lat lng) st.cache h5]
  · have : st.lookups + 2 = st.lookups + 1 + 1 := rfl
    rw [this]
    simp [getLocation, h1, h2, h3, h4,
          getAndTouch_of_find_none env.now (generateCacheKey lat lng) st.cache h5]

/-- Witness for c4_unknown_not_cached: the empty-payload environment on
the empty cache returns the Unknown placeholder twice without creating a
cache entry. -/
theorem c4_unknown_not_cached_witness :
    getLocation envUnk st0 qLat qLng false
        = (Except.ok (unknownResult (generateCacheKey qLat qLng)), ⟨[], 1⟩) ∧
      getLocation envUnk ⟨[], 1⟩ qLat qLng false
        = (Except.ok (unknownResult (generateCacheKey qLat qLng)), ⟨[], 2⟩) :=
  c4_unknown_not_cached envUnk st0 qLat qLng [] rfl rfl rfl rfl rfl

/-- C5: cache-store failures never propagate out of resolve: a failing
read makes the call behave exactly like a skipCache call (treat as miss,
continue to the resolver), a failing write still returns the computed
location result and leaves the store untouched, and an Except.error
escapes an initialized resolve only when the external resolver call
itself returned that error. -/
theorem c5_store_failure_not_propagated :
    (∀ (env : Env) (st : St) (lat lng : JsNum),
      env.readFail = true →
      getLocation env st lat lng false = getLocation env st lat lng true) ∧
    (∀ (env : Env) (st : St) (lat lng : JsNum) (raw : RawResult)
       (loc : LocationRec),
      env.inited = true → env.writeFail = true →
      env.resolver lat lng = Except.ok raw → formatLocation raw = some loc →
      (getLocation env st lat lng true).1
          = Except.ok (localResult loc (generateCacheKey lat lng)) ∧
      ((getLocation env st lat lng true).2).cache = st.cache) ∧
    (∀ (env : Env) (st : St) (lat lng : JsNum) (skipCache : Bool) (e : String),
      env.inited = true →
      (getLocation env st lat lng skipCache).1 = Except.error e →
      env.resolver lat lng = Except.error e) := by
  refine ⟨?_, ?_, ?_⟩
  · intro env st lat lng h
    simp [getLocation, h]
  · intro env st lat lng raw loc h1 h2 h3 h4
    constructor <;> simp [getLocation, h1, h2, h3, h4]
  · intro env st lat lng skipCache e h1 h2
    unfold getLocation at h2
    rw [h1] at h2
    simp only [if_true] at h2
    split at h2
    · simp at h2
    · split at h2
      · next heq =>
        simp only [Except.error.injEq] at h2
        rw [heq, h2]
      · split at h2 <;> simp at h2

/-- Witness for c5_store_failure_not_propagated: with failing cache
reads, resolve(26.7606, 83.3732) and the skipCache variant coincide. -/
theorem c5_store_failure_not_propagated_witness :
    getLocation envRF st0 qLat qLng false = getLocation envRF st0 qLat qLng true :=
  c5_store_failure_not_propagated.1 envRF st0 qLat qLng rfl

/-- C6 counterexample: for a candidate that has a name but no
countryCode, formatLocation leaves countryName undefined (none) rather
than the empty string, refuting "every absent string field ... is the
empty string" for countryName. -/
theorem c6_countryname_undefined_counterexample :
    (formatLocation [[noCountryData]]).map LocationRec.countryName = some none ∧
    (formatLocation [[noCountryData]]).map LocationRec.countryName
      ≠ some (some "") := by decide

/-- C6 amended: for every raw result whose first rank list has a first
candidate, absent name/adminName1/adminName2/countryCode/featureCode
default to the empty string and absent population to 0; countryName is
the static-table name for a known present countryCode and the raw code
for an unknown present one, but is undefined (absent), not the empty
string, when countryCode itself is absent; displayName is name, then
adminName2 only if truthy and different from name, then adminName1 if
truthy, then countryName if non-empty, with falsy parts dropped and the
survivors joined by ", ". -/
theorem c6_amended_format_defaults :
    ∀ (d : RawData) (tl : List RawData) (tls : List (List RawData)),
      ∃ loc, formatLocation ((d :: tl) :: tls) = some loc ∧
        (d.name = none → loc.name = "") ∧
        (d.admin1Code = none → loc.adminName1 = FieldVal.fstr "") ∧
        (d.admin2Code = none → loc.adminName2 = FieldVal.fstr "") ∧
        (d.featureCode = none → loc.featureCode = "") ∧
        (d.population = none → loc.population = 0) ∧
        (d.countryCode = none → loc.countryCode = "" ∧ loc.countryName = none) ∧
        (∀ c, d.countryCode = some c →
          loc.countryName = some (jsOr (countries c) c)) ∧
        loc.displayName
          = String.intercalate ", "
              (((displayParts loc.name loc.adminName1 loc.adminName2
                  loc.countryName).filter truthy).map strOf) := by
  intro d tl tls
  refine ⟨_, rfl, ?_, ?_, ?_, ?_, ?_, ?_, ?_, rfl⟩
  · intro h; simp [h]
  · intro h; simp [h, adminField]
  · intro h; simp [h, adminField]
  · intro h; simp [h]
  · intro h; simp [h]
  · intro h; simp [h, getCountryName]
  · intro c h; simp [h, getCountryName]

/-- Witness for c6_amended_format_defaults: the Gorakhpur candidate
instantiates the field characterisation. -/
theorem c6_amended_format_defaults_witness :
    ∃ loc, formatLocation ((gkData :: []) :: []) = some loc ∧
      (gkData.name = none → loc.name = "") ∧
      (gkData.admin1Code = none → loc.adminName1 = FieldVal.fstr "") ∧
      (gkData.admin2Code = none → loc.adminName2 = FieldVal.fstr "") ∧
      (gkData.featureCode = none → loc.featureCode = "") ∧
      (gkData.population = none → loc.population = 0) ∧
      (gkData.countryCode = none → loc.countryCode = "" ∧ loc.countryName = none) ∧
      (∀ c, gkData.countryCode = some c →
        loc.countryName = some (jsOr (countries c) c)) ∧
      loc.displayName
        = String.intercalate ", "
            (((displayParts loc.name loc.adminName1 loc.adminName2
                loc.countryName).filter truthy).map strOf) :=
  c6_amended_format_defaults gkData [] []

/-- C7: eviction computes cutoff = now - daysOld days (in milliseconds)
and deletes exactly the records whose lastAccessedAt is strictly before
the cutoff, returning the deleted count: a record exactly at the cutoff
is retained, one a millisecond older is removed. -/
theorem c7_eviction_strict_boundary :
    ∀ (now : Int) (daysOld : Nat) (cache : List CacheRecord),
      (clearOldCache now daysOld cache).1
          = (cache.filter (fun r =>
              decide (r.lastAccessedAt
                < now - (daysOld : Int) * 24 * 60 * 60 * 1000))).length ∧
      (∀ r : CacheRecord,
        r ∈ (clearOldCache now daysOld cache).2
          ↔ r ∈ cache ∧
            ¬ r.lastAccessedAt < now - (daysOld : Int) * 24 * 60 * 60 * 1000) ∧
      (∀ r : CacheRecord, r ∈ cache →
        r.lastAccessedAt = now - (daysOld : Int) * 24 * 60 * 60 * 1000 →
        r ∈ (clearOldCache now daysOld cache).2) ∧
      (∀ r : CacheRecord, r ∈ cache →
        r.lastAccessedAt = now - (daysOld : Int) * 24 * 60 * 60 * 1000 - 1 →
        r ∉ (clearOldCache now daysOld cache).2) := by
  intro now daysOld cache
  have hmem : ∀ r : CacheRecord,
      r ∈ (clearOldCache now daysOld cache).2
        ↔ r ∈ cache ∧
          ¬ r.lastAccessedAt < now - (daysOld : Int) * 24 * 60 * 60 * 1000 := by
    intro r
    simp [clearOldCache, deleteOlderThan_eq_filter, List.mem_filter]
  refine ⟨?_, hmem, ?_, ?_⟩
  · simp [clearOldCache, deleteOlderThan_eq_filter]
  · intro r hr heq
    exact (hmem r).mpr ⟨hr, by omega⟩
  · intro r hr heq hmem'
    have := ((hmem r).mp hmem').2
    omega

/-- Witness for c7_eviction_strict_boundary: a single record whose
lastAccessedAt is exactly one day before now = 86400000 survives
clearOldCache with daysOld = 1. -/
theorem c7_eviction_strict_boundary_witness :
    freshRecord 0 "26.761,83.373" qLat qLng gkLoc gkRaw
      ∈ (clearOldCache 86400000 1 [freshRecord 0 "26.761,83.373" qLat qLng gkLoc gkRaw]).2 :=
  (c7_eviction_strict_boundary 86400000 1
      [freshRecord 0 "26.761,83.373" qLat qLng gkLoc gkRaw]).2.2.1
    (freshRecord 0 "26.761,83.373" qLat qLng gkLoc gkRaw)
    (by decide) (by decide)

/-- C8: the batch operation processes its entries sequentially, one
resolve call each, returning exactly one result per entry in input order
(same length, i-th output coordinates equal the i-th input coordinates);
an entry whose resolve call throws contributes the per-entry record
{coordinates, location: null, error: message} in its position and the
remaining entries are still processed from the state it left behind. -/
theorem c8_batch_order_and_partial_failure :
    (∀ (env : Env) (st : St) (coords : List Coord),
      ((getLocations env st coords).1).length = coords.length) ∧
    (∀ (env : Env) (st : St) (coords : List Coord) (i : Nat),
      (((getLocations env st coords).1).get? i).map (fun b => (b.lat, b.lng))
        = (coords.get? i).map (fun c => (c.lat, c.lng))) ∧
    (∀ (env : Env) (st : St) (c : Coord) (cs : List Coord) (e : String)
       (st' : St),
      getLocation env st c.lat c.lng false = (Except.error e, st') →
      getLocations env st (c :: cs)
        = (({ lat := c.lat, lng := c.lng, location := none, error := some e } : BatchEntry)
             :: (getLocations env st' cs).1,
           (getLocations env st' cs).2)) := by
  refine ⟨getLocations_length, ?_, ?_⟩
  · intro env st coords
    induction coords generalizing st with
    | nil => intro i; simp [getLocations]
    | cons c cs ih =>
      intro i
      cases i with
      | zero =>
        simp [getLocations_cons, (batchStep_coord env st c).1,
              (batchStep_coord env st c).2]
      | succ j =>
        simp only [getLocations_cons, List.get?_cons_succ]
        exact ih ((batchStep env st c).2) j
  · intro env st c cs e st' h
    rw [getLocations_cons]
    simp [batchStep, h]

/-- Witness for c8_batch_order_and_partial_failure: a batch of two
coordinates against the rejecting resolver records the first failure
per-entry and still processes the second entry. -/
theorem c8_batch_order_and_partial_failure_witness :
    getLocations envErr st0 [⟨qLat, qLng⟩, ⟨qLat, qLng⟩]
      = (({ lat := qLat, lng := qLng, location := none, error := some "boom" } : BatchEntry)
           :: (getLocations envErr ⟨[], 1⟩ [⟨qLat, qLng⟩]).1,
         (getLocations envErr ⟨[], 1⟩ [⟨qLat, qLng⟩]).2) :=
  c8_batch_order_and_partial_failure.2.2 envErr st0 ⟨qLat, qLng⟩
    [⟨qLat, qLng⟩] "boom" ⟨[], 1⟩ rfl

/-- C10: every batch entry is resolved with the cache enabled (no
skipCache flag is passed): when the store already holds the entry's key
the batch step returns the cache-hit result (source "cache", bumped
hitCount) for that entry, and on a resolvable miss the batch step leaves
the store populated with the freshly created record for that key. -/
theorem c10_batch_never_skips_cache :
    (∀ (env : Env) (st : St) (c : Coord) (r : CacheRecord)
       (c' : List CacheRecord),
      env.inited = true → env.readFail = false →
      getAndTouch env.now (generateCacheKey c.lat c.lng) st.cache = (some r, c') →
      batchStep env st c
        = (({ lat := c.lat, lng := c.lng,
              location := some (cacheHitResult r (generateCacheKey c.lat c.lng)),
              error := none } : BatchEntry),
           ⟨c', st.lookups⟩)) ∧
    (∀ (env : Env) (st : St) (c : Coord) (raw : RawResult) (loc : LocationRec),
      env.inited = true → env.readFail = false → env.writeFail = false →
      findRec (generateCacheKey c.lat c.lng) st.cache = none →
      env.resolver c.lat c.lng = Except.ok raw →
      formatLocation raw = some loc →
      findRec (generateCacheKey c.lat c.lng) (((batchStep env st c).2).cache)
        = some (freshRecord env.now (generateCacheKey c.lat c.lng)
            c.lat c.lng loc raw)) := by
  constructor
  · intro env st c r c' h1 h2 hg
    have e : getLocation env st c.lat c.lng false
        = (Except.ok (cacheHitResult r (generateCacheKey c.lat c.lng)),
           ⟨c', st.lookups⟩) := by
      simp [getLocation, h1, h2, hg]
    simp [batchStep, e]
  · intro env st c raw loc h1 h2 h3 h4 h5 h6
    have e : getLocation env st c.lat c.lng false
        = (Except.ok (localResult loc (generateCacheKey c.lat c.lng)),
           ⟨upsert env.now (generateCacheKey c.lat c.lng) c.lat c.lng loc raw
              st.cache, st.lookups + 1⟩) := by
      simp [getLocation, h1, h2, h3, h5, h6,
            getAndTouch_of_find_none env.now (generateCacheKey c.lat c.lng)
              st.cache h4]
    have eb : ((batchStep env st c).2).cache
        = upsert env.now (generateCacheKey c.lat c.lng) c.lat c.lng loc raw
            st.cache := by
      simp [batchStep, e]
    rw [eb]
    exact upsert_of_find_none env.now (generateCacheKey c.lat c.lng)
      c.lat c.lng loc raw st.cache h4

/-- Witness for c10_batch_never_skips_cache: a batch entry over a store
already holding the Gorakhpur record resolves it from the cache with
hitCount bumped to 2. -/
theorem c10_batch_never_skips_cache_witness :
    batchStep envOk ⟨[freshRecord 0 "26.761,83.373" qLat qLng gkLoc gkRaw], 5⟩ ⟨qLat, qLng⟩
      = (({ lat := qLat, lng := qLng,
            location := some (cacheHitResult
              (touchRecord 0 (freshRecord 0 "26.761,83.373" qLat qLng gkLoc gkRaw))
              (generateCacheKey qLat qLng)),
            error := none } : BatchEntry),
         ⟨[touchRecord 0 (freshRecord 0 "26.761,83.373" qLat qLng gkLoc gkRaw)], 5⟩) :=
  c10_batch_never_skips_cache.1 envOk
    ⟨[freshRecord 0 "26.761,83.373" qLat qLng gkLoc gkRaw], 5⟩ ⟨qLat, qLng⟩
    (touchRecord 0 (freshRecord 0 "26.761,83.373" qLat qLng gkLoc gkRaw))
    [touchRecord 0 (freshRecord 0 "26.761,83.373" qLat qLng gkLoc gkRaw)]
    rfl rfl (by decide)
